import Mathlib

/-!
Verification of `src/model/builder.py` (`ModelBuilder`), a thin adaptation
layer over a TensorFlow-1-style estimator framework.

The embedding is shallow:

* A TF graph under construction is a `Graph` state: the collections the
  file reads (`REGULARIZATION_LOSSES`, `UPDATE_OPS`), the ambient
  control-dependency context, recorded summaries, the global step and a
  fresh-id counter for created ops.
* Graph-building code runs in `GraphM`, state passing plus Python
  exceptions (`Except PyErr`).
* Tensors are symbolic expression trees (`Tensor`); dataset pipelines are
  syntax trees (`Dataset`) so the order of `shuffle`/`repeat`/`batch`
  is visible in the result.
* The class itself is a record `Builder` of the overridable methods; the
  base-class method bodies are the `ModelBuilder.*` definitions, and
  `ModelBuilder.baseBuilder` assembles them.
* External framework entry points (`tf.estimator.Estimator.train` etc.)
  are modelled symbolically: calling them yields a `TFAction` value
  recording exactly what was delegated.
-/

/-- Python exceptions raised (or raisable) by the code under study. -/
inductive PyErr where
  | notImplementedError (msg : String)
  | valueError (msg : String)
  | attributeError (msg : String)
  | keyError (msg : String)
  | unboundLocalError (msg : String)
deriving DecidableEq, Repr

/-- `tf.data.Dataset` pipelines as syntax trees: a subclass-supplied source
dataset, and the three combinators `builder.py` applies to it. -/
inductive Dataset where
  | ofSource (name : String)
  | shuffle (d : Dataset) (buffer_size : Nat)
  | repeat_ (d : Dataset) (count : Option Nat)
  | batch (d : Dataset) (batch_size : Nat)
deriving DecidableEq, Repr

/-- Symbolic tensors: named graph variables, the two arithmetic forms the
file builds (`+` and `tf.add_n`), and the components produced by a dataset
iterator's `get_next()`. -/
inductive Tensor where
  | var (name : String)
  | add (a b : Tensor)
  | addN (ts : List Tensor)
  | next (d : Dataset) (component : Nat)

/-- A graph operation: its id and the ids of its control dependencies. -/
structure Op where
  id : Nat
  deps : List Nat
deriving DecidableEq, Repr

/-- The TF graph state visible to `builder.py`: the two collections it
reads, the ambient control-dependency context, recorded scalar summaries
(family, tag, tensor), the global-step tensor, and a counter for op ids. -/
structure Graph where
  reg_losses : List Tensor := []
  update_ops : List Op := []
  ctrl_deps : List Op := []
  summaries : List (String × String × Tensor) := []
  global_step : Option Tensor := none
  next_id : Nat := 0

/-- The empty graph, `tf.Graph()`. -/
def Graph.empty : Graph := {}

/-- Graph-building computations: state passing over `Graph`, with Python
exceptions. -/
def GraphM (α : Type) : Type := Graph → Except PyErr (α × Graph)

instance : Monad GraphM where
  pure a := fun g => .ok (a, g)
  bind m k := fun g =>
    match m g with
    | .error e => .error e
    | .ok (a, g') => k a g'

/-- Raise a Python exception inside a graph-building computation. -/
def throwG {α : Type} (e : PyErr) : GraphM α := fun _ => .error e

/-- Model of `tf.get_collection(tf.GraphKeys.REGULARIZATION_LOSSES)`. -/
def tf_get_collection_reg_losses : GraphM (List Tensor) :=
  fun g => .ok (g.reg_losses, g)

/-- Model of `tf.get_collection(tf.GraphKeys.UPDATE_OPS)`. -/
def tf_get_collection_update_ops : GraphM (List Op) :=
  fun g => .ok (g.update_ops, g)

/-- Model of `tf.summary.scalar(tag, tensor, family=...)`: records the
summary in the graph. -/
def tf_summary_scalar (tag : String) (t : Tensor) (family : String) : GraphM Unit :=
  fun g => .ok ((), { g with summaries := g.summaries ++ [(family, tag, t)] })

/-- Model of `tf.train.get_or_create_global_step()`: returns the graph's
global step, creating it on first use. -/
def tf_get_or_create_global_step : GraphM Tensor :=
  fun g =>
    match g.global_step with
    | some t => .ok (t, g)
    | none =>
        .ok (Tensor.var "global_step",
             { g with global_step := some (Tensor.var "global_step") })

/-- Model of `with tf.control_dependencies(deps):` — the body runs with
`deps` appended to the ambient control-dependency context, which is
restored afterwards. -/
def tf_control_dependencies {α : Type} (deps : List Op) (body : GraphM α) : GraphM α :=
  fun g =>
    match body { g with ctrl_deps := g.ctrl_deps ++ deps } with
    | .error e => .error e
    | .ok (a, g') => .ok (a, { g' with ctrl_deps := g.ctrl_deps })

/-- Model of creating a graph op (TF op-construction semantics): the new op
records the ambient control-dependency context as its dependencies. -/
def tf_create_op : GraphM Op :=
  fun g =>
    .ok (⟨g.next_id, g.ctrl_deps.map Op.id⟩, { g with next_id := g.next_id + 1 })

/-- `tf.estimator.ModeKeys` (TF 1.x string constants). -/
def ModeKeys.TRAIN : String := "train"

/-- `tf.estimator.ModeKeys.EVAL`. -/
def ModeKeys.EVAL : String := "eval"

/-- `tf.estimator.ModeKeys.PREDICT` (whose TF 1.x value is the string
`'infer'`). -/
def ModeKeys.PREDICT : String := "infer"

/-- `tf.estimator.EstimatorSpec`: the keyword arguments `builder.py`
passes. Absent kwargs are `none`. -/
structure EstimatorSpec where
  mode : String
  predictions : Tensor
  loss : Option Tensor := none
  train_op : Option Op := none
  eval_metric_ops : Option (List (String × Tensor)) := none

/-- Numpy data coming out of `sess.run`: the fetched tensor evaluated at a
given loop iteration, or Python `None` (the result of fetching `None`). -/
inductive Data where
  | arr (t : Tensor) (step : Nat)
  | noneV

/-- Reference to a checkpoint: `tf.train.latest_checkpoint(model_dir)`. -/
inductive CkptRef where
  | latest (model_dir : String)

/-- Observable events of the visualization loops: the `saver.restore` call
and each invocation of a subclass visualization callback. -/
inductive VisEvent where
  | restore (ckpt : CkptRef)
  | visExample (feature_data label_data : Data)
  | visPrediction (prediction_data feature_data label_data : Data)

/-- The `ModelBuilder` interface: the constructor arguments plus every
method a subclass may override. The inherited defaults are the
`ModelBuilder.*` definitions below (see `ModelBuilder.baseBuilder`). -/
structure Builder where
  model_id : String
  params : List (String × Nat)
  get_inference : Tensor → String → GraphM Tensor
  get_inference_loss : Tensor → Option Tensor → GraphM Tensor
  get_train_op : Tensor → Tensor → GraphM Op
  get_train_dataset : Except PyErr Dataset
  get_eval_dataset : Except PyErr Dataset
  get_predict_dataset : Except PyErr Dataset
  vis_example_data : Data → Data → Except PyErr Unit
  vis_prediction_data : Data → Data → Data → Except PyErr Unit
  get_predictions : Tensor → GraphM Tensor
  get_eval_metric_ops : Tensor → Option Tensor → GraphM (List (String × Tensor))

/-- `os.path.join` on the relative paths used here. -/
def os_path_join (a b : String) : String := a ++ "/" ++ b

/-- `os.path.dirname(__file__)` for `src/model/builder.py`. -/
def builder_file_dir : String := "src/model"

/-- `estimator_dir = os.path.join(os.path.dirname(__file__), 'estimator')`. -/
def estimator_dir : String := os_path_join builder_file_dir "estimator"

/-- `model_dir` property: `os.path.join(estimator_dir, self.model_id)`. -/
def ModelBuilder.model_dir (b : Builder) : String :=
  os_path_join estimator_dir b.model_id

/-- `batch_size` property: `self.params['batch_size']` — a dict lookup,
raising `KeyError` when the key is absent. -/
def ModelBuilder.batch_size (b : Builder) : Except PyErr Nat :=
  match b.params.lookup "batch_size" with
  | some v => .ok v
  | none => .error (.keyError "batch_size")

/-- Base-class `get_inference`: raises `NotImplementedError`. -/
def ModelBuilder.get_inference (features : Tensor) (mode : String) : GraphM Tensor :=
  throwG (.notImplementedError "Abstract method")

/-- Base-class `get_inference_loss`: raises `NotImplementedError`. -/
def ModelBuilder.get_inference_loss (inference : Tensor) (labels : Option Tensor) :
    GraphM Tensor :=
  throwG (.notImplementedError "Abstract method")

/-- Base-class `get_train_op`: raises `NotImplementedError`. -/
def ModelBuilder.get_train_op (loss : Tensor) (step : Tensor) : GraphM Op :=
  throwG (.notImplementedError "Abstract method")

/-- Base-class `get_train_dataset`: raises `NotImplementedError`. -/
def ModelBuilder.get_train_dataset : Except PyErr Dataset :=
  .error (.notImplementedError "Abstract method")

/-- Base-class `get_eval_dataset`: raises `NotImplementedError`. -/
def ModelBuilder.get_eval_dataset : Except PyErr Dataset :=
  .error (.notImplementedError "Abstract method")

/-- Base-class `get_predict_dataset`: raises `NotImplementedError`. -/
def ModelBuilder.get_predict_dataset : Except PyErr Dataset :=
  .error (.notImplementedError "Abstract method")

/-- Base-class `vis_example_data`: raises `NotImplementedError()`. -/
def ModelBuilder.vis_example_data (feature_data label_data : Data) :
    Except PyErr Unit :=
  .error (.notImplementedError "")

/-- Base-class `vis_prediction_data`: raises `NotImplementedError()`. -/
def ModelBuilder.vis_prediction_data
    (prediction_data feature_data label_data : Data) : Except PyErr Unit :=
  .error (.notImplementedError "")

/-- Base-class `get_predictions`: the identity, returning inferences. -/
def ModelBuilder.get_predictions (inferences : Tensor) : GraphM Tensor :=
  pure inferences

/-- Base-class `get_eval_metric_ops`: returns the empty dict. -/
def ModelBuilder.get_eval_metric_ops (predictions : Tensor)
    (labels : Option Tensor) : GraphM (List (String × Tensor)) :=
  pure []

/-- The base class itself: every method is the inherited default. -/
def ModelBuilder.baseBuilder (model_id : String) (params : List (String × Nat)) :
    Builder where
  model_id := model_id
  params := params
  get_inference := ModelBuilder.get_inference
  get_inference_loss := ModelBuilder.get_inference_loss
  get_train_op := ModelBuilder.get_train_op
  get_train_dataset := ModelBuilder.get_train_dataset
  get_eval_dataset := ModelBuilder.get_eval_dataset
  get_predict_dataset := ModelBuilder.get_predict_dataset
  vis_example_data := ModelBuilder.vis_example_data
  vis_prediction_data := ModelBuilder.vis_prediction_data
  get_predictions := ModelBuilder.get_predictions
  get_eval_metric_ops := ModelBuilder.get_eval_metric_ops

/-- `get_total_loss` (builder.py lines 130–145): reads the
regularization-loss collection; when non-empty, records the two scalar
summaries and returns `inference_loss + tf.add_n(reg_losses)`; otherwise
returns `inference_loss`. -/
def ModelBuilder.get_total_loss (inference_loss : Tensor) : GraphM Tensor := do
  let reg_losses ← tf_get_collection_reg_losses
  if reg_losses.length > 0 then do
    tf_summary_scalar "inference_loss" inference_loss "sublosses"
    let reg_loss := Tensor.addN reg_losses
    tf_summary_scalar "reg_loss" reg_loss "sublosses"
    pure (Tensor.add inference_loss reg_loss)
  else
    pure inference_loss

/-- `get_estimator_spec` (builder.py lines 147–174). Python's early
returns are rendered as nested if/else. -/
def ModelBuilder.get_estimator_spec (b : Builder) (features : Tensor)
    (labels : Option Tensor) (mode : String) (config : Option Unit := none) :
    GraphM EstimatorSpec := do
  let inference ← b.get_inference features mode
  let predictions ← b.get_predictions inference
  if mode = ModeKeys.PREDICT then
    pure { mode := mode, predictions := predictions }
  else do
    let inference_loss ← b.get_inference_loss inference labels
    let loss ← ModelBuilder.get_total_loss inference_loss
    if mode = ModeKeys.EVAL then do
      let metric_ops ← b.get_eval_metric_ops predictions labels
      pure { mode := mode, predictions := predictions, loss := some loss,
             eval_metric_ops := some metric_ops }
    else do
      let step ← tf_get_or_create_global_step
      let update_ops ← tf_get_collection_update_ops
      let train_op ← tf_control_dependencies update_ops
        (b.get_train_op loss step)
      if mode = ModeKeys.TRAIN then
        pure { mode := mode, predictions := predictions, loss := some loss,
               train_op := some train_op }
      else
        throwG (.valueError ("Unrecognized mode " ++ mode))

/-- `dataset.make_one_shot_iterator().get_next()` on a dataset of
(features, labels) 2-tuples. -/
def iterator_get_next_pair (d : Dataset) : Tensor × Tensor :=
  (Tensor.next d 0, Tensor.next d 1)

/-- `dataset.make_one_shot_iterator().get_next()` on a dataset of single
feature elements. -/
def iterator_get_next (d : Dataset) : Tensor :=
  Tensor.next d 0

/-- `get_train_inputs` (lines 176–189): shuffle, repeat, then batch the
training dataset and return the iterator's `(features, labels)`. Note the
`shuffle` argument is accepted but, as in the source, never consulted. -/
def ModelBuilder.get_train_inputs (b : Builder) (shuffle : Bool := true)
    (repeat_count : Option Nat := none) (shuffle_buffer_size : Nat := 10000) :
    Except PyErr (Tensor × Option Tensor) := do
  let dataset ← b.get_train_dataset
  let dataset := Dataset.repeat_ (Dataset.shuffle dataset shuffle_buffer_size)
    repeat_count
  let bs ← ModelBuilder.batch_size b
  let dataset := Dataset.batch dataset bs
  let (features, labels) := iterator_get_next_pair dataset
  pure (features, some labels)

/-- `get_eval_inputs` (lines 191–201): batch the eval dataset and return
the iterator's `(features, labels)`. -/
def ModelBuilder.get_eval_inputs (b : Builder) :
    Except PyErr (Tensor × Option Tensor) := do
  let dataset ← b.get_eval_dataset
  let bs ← ModelBuilder.batch_size b
  let dataset := Dataset.batch dataset bs
  let (features, labels) := iterator_get_next_pair dataset
  pure (features, some labels)

/-- `get_predict_inputs` (lines 203–213): batch the prediction dataset and
return `(features, None)`. -/
def ModelBuilder.get_predict_inputs (b : Builder) :
    Except PyErr (Tensor × Option Tensor) := do
  let dataset ← b.get_predict_dataset
  let bs ← ModelBuilder.batch_size b
  let dataset := Dataset.batch dataset bs
  let features := iterator_get_next dataset
  pure (features, none)

/-- `get_inputs` (lines 215–229). The source's `elif` conditions read
`tf.esitmator.ModeKeys.EVAL` and `tf.esitmator.ModeKeys.INFER` — `esitmator`
is a misspelling of `estimator`, so for any mode other than TRAIN the
attribute lookup raises `AttributeError` before any comparison happens. -/
def ModelBuilder.get_inputs (b : Builder) (mode : String) :
    Except PyErr (Tensor × Option Tensor) :=
  if mode = ModeKeys.TRAIN then
    ModelBuilder.get_train_inputs b
  else
    .error (.attributeError "module tensorflow has no attribute esitmator")

/-- `tf.estimator.Estimator(model_fn, model_dir, config=config)`: the
constructor just packages its arguments. -/
structure TFEstimator where
  model_fn : Tensor → Option Tensor → String → Option Unit → GraphM EstimatorSpec
  model_dir : String
  config : Option Unit

/-- Observable delegations to the external framework: which estimator
method was called, on which estimator, with which input function (input
functions are pure here, so they are recorded by value). -/
inductive TFAction where
  | estimatorTrain (e : TFEstimator) (input_fn : Except PyErr (Tensor × Option Tensor))
  | estimatorPredict (e : TFEstimator) (input_fn : Except PyErr (Tensor × Option Tensor))
  | estimatorEvaluate (e : TFEstimator) (input_fn : Except PyErr (Tensor × Option Tensor))

/-- External `Estimator.train`: modelled as the delegation record. -/
def TFEstimator.train (e : TFEstimator)
    (input_fn : Except PyErr (Tensor × Option Tensor)) : TFAction :=
  .estimatorTrain e input_fn

/-- External `Estimator.predict`: modelled as the delegation record. -/
def TFEstimator.predict (e : TFEstimator)
    (input_fn : Except PyErr (Tensor × Option Tensor)) : TFAction :=
  .estimatorPredict e input_fn

/-- External `Estimator.evaluate`: modelled as the delegation record. -/
def TFEstimator.evaluate (e : TFEstimator)
    (input_fn : Except PyErr (Tensor × Option Tensor)) : TFAction :=
  .estimatorEvaluate e input_fn

/-- `get_estimator` (lines 231–234): builds the framework estimator from
`self.get_estimator_spec` and `self.model_dir`. -/
def ModelBuilder.get_estimator (b : Builder) (config : Option Unit := none) :
    TFEstimator where
  model_fn := fun features labels mode cfg =>
    ModelBuilder.get_estimator_spec b features labels mode cfg
  model_dir := ModelBuilder.model_dir b
  config := config

/-- `train` (lines 236–239): build the estimator, call its `train` with
`self.get_train_inputs`. -/
def ModelBuilder.train (b : Builder) (config : Option Unit := none) : TFAction :=
  let estimator := ModelBuilder.get_estimator b config
  estimator.train (ModelBuilder.get_train_inputs b)

/-- `predict` (lines 241–244): build the estimator, return its `predict`
on `self.get_predict_inputs`. -/
def ModelBuilder.predict (b : Builder) (config : Option Unit := none) : TFAction :=
  let estimator := ModelBuilder.get_estimator b config
  estimator.predict (ModelBuilder.get_predict_inputs b)

/-- `eval` (lines 246–249): build the estimator, return its `evaluate` on
`self.get_eval_inputs`. -/
def ModelBuilder.eval (b : Builder) (config : Option Unit := none) : TFAction :=
  let estimator := ModelBuilder.get_estimator b config
  estimator.evaluate (ModelBuilder.get_eval_inputs b)

/-- `sess.run` on one fetch at loop iteration `step`; fetching Python
`None` (the labels of the prediction pipeline) yields `None` data. -/
def sess_run_fetch (step : Nat) : Option Tensor → Data
  | some t => Data.arr t step
  | none => Data.noneV

/-- The body of the `vis_inputs` `while not sess.should_stop()` loop, run
for `remaining` iterations starting at iteration `cur`: each iteration
fetches the batch and hands it to `vis_example_data`; the trace of
callback invocations is returned. -/
def vis_example_loop (b : Builder) (features : Tensor) (labels : Option Tensor) :
    Nat → Nat → Except PyErr (List VisEvent)
  | _, 0 => .ok []
  | cur, n + 1 => do
      let feature_data := Data.arr features cur
      let label_data := sess_run_fetch cur labels
      let _ ← b.vis_example_data feature_data label_data
      let rest ← vis_example_loop b features labels (cur + 1) n
      .ok (VisEvent.visExample feature_data label_data :: rest)

/-- The body of the `vis_predictions` session loop, analogous to
`vis_example_loop` but fetching `[predictions, features, labels]` and
calling `vis_prediction_data`. -/
def vis_prediction_loop (b : Builder) (predictions features : Tensor)
    (labels : Option Tensor) : Nat → Nat → Except PyErr (List VisEvent)
  | _, 0 => .ok []
  | cur, n + 1 => do
      let prediction_data := Data.arr predictions cur
      let feature_data := Data.arr features cur
      let label_data := sess_run_fetch cur labels
      let _ ← b.vis_prediction_data prediction_data feature_data label_data
      let rest ← vis_prediction_loop b predictions features labels (cur + 1) n
      .ok (VisEvent.visPrediction prediction_data feature_data label_data :: rest)

/-- `vis_inputs` (lines 251–267). `sess_steps` models the external
`MonitoredSession`: the number of iterations before `should_stop()` turns
true. For a mode other than PREDICT/TRAIN the Python code leaves
`features, labels` unbound, so the first `sess.run([features, labels])`
raises; with zero iterations the loop body never runs. -/
def ModelBuilder.vis_inputs (b : Builder) (sess_steps : Nat)
    (mode : String := ModeKeys.TRAIN) : Except PyErr (List VisEvent) := do
  let fl ←
    if mode = ModeKeys.PREDICT then
      (ModelBuilder.get_predict_inputs b).map some
    else if mode = ModeKeys.TRAIN then
      (ModelBuilder.get_train_inputs b).map some
    else
      .ok none
  match fl with
  | none =>
      if sess_steps = 0 then .ok []
      else .error (.unboundLocalError "features")
  | some (features, labels) =>
      vis_example_loop b features labels 0 sess_steps

/-- `vis_predictions` (lines 269–290): builds the inputs for the given
mode on a fresh graph, takes `predictions` from
`get_estimator_spec(features, labels, PREDICT)`, restores from
`tf.train.latest_checkpoint(self.model_dir)`, then runs the session loop.
For a mode other than PREDICT/TRAIN, `features` is unbound at the
`get_estimator_spec` call. -/
def ModelBuilder.vis_predictions (b : Builder) (sess_steps : Nat)
    (mode : String := ModeKeys.TRAIN) : Except PyErr (List VisEvent) := do
  let fl ←
    if mode = ModeKeys.PREDICT then
      (ModelBuilder.get_predict_inputs b).map some
    else if mode = ModeKeys.TRAIN then
      (ModelBuilder.get_train_inputs b).map some
    else
      .ok none
  match fl with
  | none => .error (.unboundLocalError "features")
  | some (features, labels) =>
      match ModelBuilder.get_estimator_spec b features labels
          ModeKeys.PREDICT none Graph.empty with
      | .error e => .error e
      | .ok (spec, _) => do
          let predictions := spec.predictions
          let restore_event :=
            VisEvent.restore (CkptRef.latest (ModelBuilder.model_dir b))
          let rest ← vis_prediction_loop b predictions features labels 0 sess_steps
          .ok (restore_event :: rest)

/-- The value `get_total_loss` returns when run on graph `g` (used to name
intermediate results in theorem statements). -/
def total_loss_value (g : Graph) (inference_loss : Tensor) : Tensor :=
  if g.reg_losses.length > 0 then
    Tensor.add inference_loss (Tensor.addN g.reg_losses)
  else inference_loss

/-- The graph state `get_total_loss` leaves behind when run on `g`. -/
def total_loss_state (g : Graph) (inference_loss : Tensor) : Graph :=
  if g.reg_losses.length > 0 then
    { g with summaries := g.summaries ++
        [("sublosses", "inference_loss", inference_loss)] ++
        [("sublosses", "reg_loss", Tensor.addN g.reg_losses)] }
  else g

/-- The tensor `tf.train.get_or_create_global_step()` returns on graph `g`. -/
def global_step_value (g : Graph) : Tensor :=
  match g.global_step with
  | some t => t
  | none => Tensor.var "global_step"

/-- The graph state `tf.train.get_or_create_global_step()` leaves behind. -/
def global_step_state (g : Graph) : Graph :=
  match g.global_step with
  | some _ => g
  | none => { g with global_step := some (Tensor.var "global_step") }

/-- The PREDICT branch of `get_estimator_spec` as the specification words
it: infer, take predictions, and return a spec carrying only the mode and
the predictions — `get_inference_loss` and `get_train_op` do not occur. -/
def specPredictBranch (b : Builder) (features : Tensor) : GraphM EstimatorSpec := do
  let inference ← b.get_inference features ModeKeys.PREDICT
  let predictions ← b.get_predictions inference
  pure { mode := ModeKeys.PREDICT, predictions := predictions, loss := none,
         train_op := none, eval_metric_ops := none }

/-- The EVAL branch of `get_estimator_spec` as the specification words it:
a spec carrying the mode, predictions, the total loss, and the metric ops
from `get_eval_metric_ops(predictions, labels)` — no train op. -/
def specEvalBranch (b : Builder) (features : Tensor) (labels : Option Tensor) :
    GraphM EstimatorSpec := do
  let inference ← b.get_inference features ModeKeys.EVAL
  let predictions ← b.get_predictions inference
  let inference_loss ← b.get_inference_loss inference labels
  let loss ← ModelBuilder.get_total_loss inference_loss
  let metric_ops ← b.get_eval_metric_ops predictions labels
  pure { mode := ModeKeys.EVAL, predictions := predictions, loss := some loss,
         train_op := none, eval_metric_ops := some metric_ops }

/-- The TRAIN branch of `get_estimator_spec` as the specification words
it: a spec carrying the mode, predictions, the total loss, and the train
op obtained from `get_train_op` — no eval metric ops. -/
def specTrainBranch (b : Builder) (features : Tensor) (labels : Option Tensor) :
    GraphM EstimatorSpec := do
  let inference ← b.get_inference features ModeKeys.TRAIN
  let predictions ← b.get_predictions inference
  let inference_loss ← b.get_inference_loss inference labels
  let loss ← ModelBuilder.get_total_loss inference_loss
  let step ← tf_get_or_create_global_step
  let update_ops ← tf_get_collection_update_ops
  let train_op ← tf_control_dependencies update_ops (b.get_train_op loss step)
  pure { mode := ModeKeys.TRAIN, predictions := predictions, loss := some loss,
         train_op := some train_op, eval_metric_ops := none }

/-- A computation `m` attaches the ambient control-dependency context to
the op it returns — the TF op-construction semantics every real
`get_train_op` implementation inherits (compare `tf_create_op`). -/
def attaches_ctrl_deps (m : GraphM Op) : Prop :=
  ∀ g op g', m g = .ok (op, g') → ∀ d ∈ g.ctrl_deps, d.id ∈ op.deps

/-- A concrete subclass used to instantiate theorems with hypotheses: all
abstract methods implemented, `get_train_op` creates an op. -/
def sampleBuilder : Builder where
  model_id := "m1"
  params := [("batch_size", 4)]
  get_inference := fun features mode => pure (Tensor.var "inference")
  get_inference_loss := fun inference labels => pure (Tensor.var "inference_loss")
  get_train_op := fun loss step => tf_create_op
  get_train_dataset := .ok (Dataset.ofSource "train_source")
  get_eval_dataset := .ok (Dataset.ofSource "eval_source")
  get_predict_dataset := .ok (Dataset.ofSource "predict_source")
  vis_example_data := fun feature_data label_data => .ok ()
  vis_prediction_data := fun prediction_data feature_data label_data => .ok ()
  get_predictions := ModelBuilder.get_predictions
  get_eval_metric_ops := ModelBuilder.get_eval_metric_ops

/-- A sample graph with a non-trivial `UPDATE_OPS` collection, for
instantiating the control-dependency theorem. -/
def sampleGraph : Graph :=
  { update_ops := [⟨7, []⟩, ⟨9, []⟩], next_id := 10 }

/-- Running a bound computation: unfolding lemma for the `GraphM` monad. -/
theorem GraphM.run_bind {α β : Type} (m : GraphM α) (k : α → GraphM β) (g : Graph) :
    (m >>= k) g = match m g with
      | .error e => .error e
      | .ok (a, g') => k a g' := rfl

/-- Running `pure`: unfolding lemma for the `GraphM` monad. -/
theorem GraphM.run_pure {α : Type} (a : α) (g : Graph) :
    (pure a : GraphM α) g = .ok (a, g) := rfl

/-- `get_total_loss` always succeeds, with the named value and state. -/
theorem total_loss_run (l : Tensor) (g : Graph) :
    ModelBuilder.get_total_loss l g = .ok (total_loss_value g l, total_loss_state g l) := by
  unfold ModelBuilder.get_total_loss total_loss_value total_loss_state
  by_cases h : g.reg_losses.length > 0 <;>
    simp [GraphM.run_bind, GraphM.run_pure, tf_get_collection_reg_losses,
      tf_summary_scalar, h]

/-- `tf.train.get_or_create_global_step()` always succeeds, with the named
value and state. -/
theorem global_step_run (g : Graph) :
    tf_get_or_create_global_step g = .ok (global_step_value g, global_step_state g) := by
  unfold tf_get_or_create_global_step global_step_value global_step_state
  cases h : g.global_step <;> simp [h]

/-- C2: for every inference loss, `get_total_loss` returns
`inference_loss + tf.add_n(reg_losses)` when the collected
regularization-loss collection is non-empty, and returns `inference_loss`
unchanged (with the graph untouched) when that collection is empty. -/
theorem get_total_loss_reg_aggregation (g : Graph) (inference_loss : Tensor) :
    ModelBuilder.get_total_loss inference_loss g =
      if g.reg_losses.length > 0 then
        .ok (Tensor.add inference_loss (Tensor.addN g.reg_losses),
             total_loss_state g inference_loss)
      else .ok (inference_loss, g) := by
  rw [total_loss_run]
  unfold total_loss_value total_loss_state
  by_cases h : g.reg_losses.length > 0 <;> simp [h]

/-- C5: in the base class, each subclass-responsibility — `get_inference`,
`get_inference_loss`, `get_train_op`, `get_train_dataset`,
`get_eval_dataset`, `get_predict_dataset` — raises `NotImplementedError`
for every input and never returns a value. -/
theorem base_abstract_methods_raise :
    (∀ (features : Tensor) (mode : String) (g : Graph),
       ModelBuilder.get_inference features mode g
         = .error (.notImplementedError "Abstract method"))
    ∧ (∀ (inference : Tensor) (labels : Option Tensor) (g : Graph),
       ModelBuilder.get_inference_loss inference labels g
         = .error (.notImplementedError "Abstract method"))
    ∧ (∀ (loss step : Tensor) (g : Graph),
       ModelBuilder.get_train_op loss step g
         = .error (.notImplementedError "Abstract method"))
    ∧ ModelBuilder.get_train_dataset = .error (.notImplementedError "Abstract method")
    ∧ ModelBuilder.get_eval_dataset = .error (.notImplementedError "Abstract method")
    ∧ ModelBuilder.get_predict_dataset
        = .error (.notImplementedError "Abstract method") :=
  ⟨fun _ _ _ => rfl, fun _ _ _ => rfl, fun _ _ _ => rfl, rfl, rfl, rfl⟩

/-- C6: the lifecycle wrappers delegate to the framework estimator —
`train` calls the estimator's `train` with `get_train_inputs`, `predict`
returns its `predict` on `get_predict_inputs`, `eval` returns its
`evaluate` on `get_eval_inputs` — and each builds the estimator from
`get_estimator_spec` and `self.model_dir`. -/
theorem lifecycle_wrappers_delegate (b : Builder) (config : Option Unit) :
    ModelBuilder.train b config
      = TFAction.estimatorTrain (ModelBuilder.get_estimator b config)
          (ModelBuilder.get_train_inputs b)
    ∧ ModelBuilder.predict b config
      = TFAction.estimatorPredict (ModelBuilder.get_estimator b config)
          (ModelBuilder.get_predict_inputs b)
    ∧ ModelBuilder.eval b config
      = TFAction.estimatorEvaluate (ModelBuilder.get_estimator b config)
          (ModelBuilder.get_eval_inputs b)
    ∧ ModelBuilder.get_estimator b config
      = ⟨fun features labels mode cfg =>
           ModelBuilder.get_estimator_spec b features labels mode cfg,
         ModelBuilder.model_dir b, config⟩ :=
  ⟨rfl, rfl, rfl, rfl⟩

/-- C3 (counter-evidence): because the `elif` conditions of `get_inputs`
read the misspelled `tf.esitmator`, every mode other than TRAIN raises
`AttributeError` instead of reaching `get_eval_inputs` /
`get_predict_inputs`; only the TRAIN branch redirects as documented. -/
theorem get_inputs_misspelled_module_attr :
    ModelBuilder.get_inputs sampleBuilder ModeKeys.EVAL
      = .error (.attributeError "module tensorflow has no attribute esitmator")
    ∧ ModelBuilder.get_inputs sampleBuilder ModeKeys.PREDICT
      = .error (.attributeError "module tensorflow has no attribute esitmator")
    ∧ ModelBuilder.get_inputs sampleBuilder ModeKeys.TRAIN
      = ModelBuilder.get_train_inputs sampleBuilder := by
  refine ⟨?_, ?_, ?_⟩ <;>
    simp [ModelBuilder.get_inputs, ModeKeys.EVAL, ModeKeys.PREDICT, ModeKeys.TRAIN]

/-- C4: `get_train_inputs` (at its defaults) builds
`batch(repeat(shuffle(train_dataset, 10000), count=None), batch_size)` —
shuffle, then repeat, then batch, in that order — while `get_eval_inputs`
and `get_predict_inputs` only batch their datasets, with no shuffle and no
repeat. -/
theorem input_pipeline_shapes (b : Builder) (dtr dev dpr : Dataset) (bs : Nat)
    (h1 : b.get_train_dataset = .ok dtr)
    (h2 : b.get_eval_dataset = .ok dev)
    (h3 : b.get_predict_dataset = .ok dpr)
    (hbs : ModelBuilder.batch_size b = .ok bs) :
    ModelBuilder.get_train_inputs b
      = .ok (Tensor.next (Dataset.batch (Dataset.repeat_ (Dataset.shuffle dtr 10000) none) bs) 0,
             some (Tensor.next (Dataset.batch (Dataset.repeat_ (Dataset.shuffle dtr 10000) none) bs) 1))
    ∧ ModelBuilder.get_eval_inputs b
      = .ok (Tensor.next (Dataset.batch dev bs) 0,
             some (Tensor.next (Dataset.batch dev bs) 1))
    ∧ ModelBuilder.get_predict_inputs b
      = .ok (Tensor.next (Dataset.batch dpr bs) 0, none) := by
  refine ⟨?_, ?_, ?_⟩ <;>
    simp [ModelBuilder.get_train_inputs, ModelBuilder.get_eval_inputs,
      ModelBuilder.get_predict_inputs, h1, h2, h3, hbs,
      iterator_get_next_pair, iterator_get_next, Bind.bind, Except.bind,
      Pure.pure, Except.pure]

/-- Witness for `input_pipeline_shapes` at the concrete `sampleBuilder`. -/
theorem input_pipeline_shapes_w :
    ModelBuilder.get_train_inputs sampleBuilder
      = .ok (Tensor.next (Dataset.batch (Dataset.repeat_
               (Dataset.shuffle (Dataset.ofSource "train_source") 10000) none) 4) 0,
             some (Tensor.next (Dataset.batch (Dataset.repeat_
               (Dataset.shuffle (Dataset.ofSource "train_source") 10000) none) 4) 1))
    ∧ ModelBuilder.get_eval_inputs sampleBuilder
      = .ok (Tensor.next (Dataset.batch (Dataset.ofSource "eval_source") 4) 0,
             some (Tensor.next (Dataset.batch (Dataset.ofSource "eval_source") 4) 1))
    ∧ ModelBuilder.get_predict_inputs sampleBuilder
      = .ok (Tensor.next (Dataset.batch (Dataset.ofSource "predict_source") 4) 0, none) :=
  input_pipeline_shapes sampleBuilder (Dataset.ofSource "train_source")
    (Dataset.ofSource "eval_source") (Dataset.ofSource "predict_source") 4
    rfl rfl rfl rfl

/-- C9: whenever `get_predict_inputs` returns a pair, its second component
is `None` — prediction inputs carry batched features only, never labels. -/
theorem predict_inputs_carry_no_labels (b : Builder) (p : Tensor × Option Tensor)
    (h : ModelBuilder.get_predict_inputs b = .ok p) : p.2 = none := by
  cases hd : b.get_predict_dataset with
  | error e => simp [ModelBuilder.get_predict_inputs, hd, Bind.bind, Except.bind] at h
  | ok d =>
    cases hbs : ModelBuilder.batch_size b with
    | error e =>
      simp [ModelBuilder.get_predict_inputs, hd, hbs, Bind.bind, Except.bind] at h
    | ok bs =>
      simp [ModelBuilder.get_predict_inputs, hd, hbs, iterator_get_next,
        Bind.bind, Except.bind, Pure.pure, Except.pure] at h
      subst h
      rfl

/-- Witness for `predict_inputs_carry_no_labels` at `sampleBuilder`. -/
theorem predict_inputs_carry_no_labels_w :
    ((Tensor.next (Dataset.batch (Dataset.ofSource "predict_source") 4) 0,
      (none : Option Tensor)) : Tensor × Option Tensor).2 = none :=
  predict_inputs_carry_no_labels sampleBuilder
    (Tensor.next (Dataset.batch (Dataset.ofSource "predict_source") 4) 0, none) rfl

/-- C1: for every features, labels and recognized mode,
`get_estimator_spec` dispatches on the mode: in PREDICT mode it behaves
exactly like `specPredictBranch` (a spec carrying only the mode and the
predictions; `get_inference_loss` and `get_train_op` do not occur in that
pipeline, for any builder); in EVAL mode like `specEvalBranch` (mode,
predictions, total loss, and the metric ops from
`get_eval_metric_ops(predictions, labels)`); in TRAIN mode like
`specTrainBranch` (mode, predictions, total loss, and the train op from
`get_train_op`). -/
theorem get_estimator_spec_mode_dispatch (b : Builder) (features : Tensor)
    (labels : Option Tensor) (g : Graph) :
    ModelBuilder.get_estimator_spec b features labels ModeKeys.PREDICT none g
      = specPredictBranch b features g
    ∧ ModelBuilder.get_estimator_spec b features labels ModeKeys.EVAL none g
      = specEvalBranch b features labels g
    ∧ ModelBuilder.get_estimator_spec b features labels ModeKeys.TRAIN none g
      = specTrainBranch b features labels g := by
  refine ⟨?_, ?_, ?_⟩ <;>
    simp [ModelBuilder.get_estimator_spec, specPredictBranch, specEvalBranch,
      specTrainBranch, GraphM.run_bind, GraphM.run_pure, total_loss_run,
      global_step_run, tf_get_collection_update_ops, ModeKeys.TRAIN,
      ModeKeys.EVAL, ModeKeys.PREDICT]

/-- TRAIN and PREDICT are distinct mode keys. -/
theorem mode_train_ne_predict : ¬ ModeKeys.TRAIN = ModeKeys.PREDICT := by decide

/-- TRAIN and EVAL are distinct mode keys. -/
theorem mode_train_ne_eval : ¬ ModeKeys.TRAIN = ModeKeys.EVAL := by decide

/-- Running `get_estimator_spec` at an unrecognized mode: after the
inference, prediction and loss computations, the `train_op` block runs and
the function then raises `ValueError` naming the mode. -/
theorem unrecognized_mode_run (b : Builder) (features : Tensor)
    (labels : Option Tensor) (mode : String)
    (h1 : mode ≠ ModeKeys.PREDICT) (h2 : mode ≠ ModeKeys.EVAL)
    (h3 : mode ≠ ModeKeys.TRAIN) (g : Graph) :
    ModelBuilder.get_estimator_spec b features labels mode none g =
      match b.get_inference features mode g with
      | .error e => .error e
      | .ok (i, g1) =>
        match b.get_predictions i g1 with
        | .error e => .error e
        | .ok (_, g2) =>
          match b.get_inference_loss i labels g2 with
          | .error e => .error e
          | .ok (il, g3) =>
            match tf_control_dependencies
                (global_step_state (total_loss_state g3 il)).update_ops
                (b.get_train_op (total_loss_value g3 il)
                  (global_step_value (total_loss_state g3 il)))
                (global_step_state (total_loss_state g3 il)) with
            | .error e => .error e
            | .ok (_, _) => .error (.valueError ("Unrecognized mode " ++ mode)) := by
  cases hx : b.get_inference features mode g with
  | error e => simp [ModelBuilder.get_estimator_spec, GraphM.run_bind, hx]
  | ok v =>
    obtain ⟨i, g1⟩ := v
    cases hy : b.get_predictions i g1 with
    | error e =>
      simp [ModelBuilder.get_estimator_spec, GraphM.run_bind, hx, hy]
    | ok w =>
      obtain ⟨p, g2⟩ := w
      cases hz : b.get_inference_loss i labels g2 with
      | error e =>
        simp [ModelBuilder.get_estimator_spec, GraphM.run_bind, hx, hy, hz,
          h1]
      | ok u =>
        obtain ⟨il, g3⟩ := u
        cases hc : tf_control_dependencies
            (global_step_state (total_loss_state g3 il)).update_ops
            (b.get_train_op (total_loss_value g3 il)
              (global_step_value (total_loss_state g3 il)))
            (global_step_state (total_loss_state g3 il)) with
        | error e =>
          simp [ModelBuilder.get_estimator_spec, GraphM.run_bind, hx, hy, hz,
            hc, h1, h2, h3, total_loss_run, global_step_run,
            tf_get_collection_update_ops, throwG]
        | ok t =>
          obtain ⟨top, g5⟩ := t
          simp [ModelBuilder.get_estimator_spec, GraphM.run_bind, hx, hy, hz,
            hc, h1, h2, h3, total_loss_run, global_step_run,
            tf_get_collection_update_ops, throwG]

/-- Running `get_estimator_spec` in TRAIN mode, given the intermediate
callback results: the train op is obtained by running `get_train_op` on
the total loss and global step inside the `UPDATE_OPS` control-dependency
block, and the spec carries mode, predictions, loss and that train op. -/
theorem train_mode_run (b : Builder) (features : Tensor)
    (labels : Option Tensor) (g : Graph) (i : Tensor) (g1 : Graph) (p : Tensor)
    (g2 : Graph) (il : Tensor) (g3 : Graph)
    (hinf : b.get_inference features ModeKeys.TRAIN g = .ok (i, g1))
    (hpred : b.get_predictions i g1 = .ok (p, g2))
    (hloss : b.get_inference_loss i labels g2 = .ok (il, g3)) :
    ModelBuilder.get_estimator_spec b features labels ModeKeys.TRAIN none g =
      match tf_control_dependencies
          (global_step_state (total_loss_state g3 il)).update_ops
          (b.get_train_op (total_loss_value g3 il)
            (global_step_value (total_loss_state g3 il)))
          (global_step_state (total_loss_state g3 il)) with
      | .error e => .error e
      | .ok (top, g5) =>
          .ok ({ mode := ModeKeys.TRAIN, predictions := p,
                 loss := some (total_loss_value g3 il), train_op := some top,
                 eval_metric_ops := none }, g5) := by
  cases hc : tf_control_dependencies
      (global_step_state (total_loss_state g3 il)).update_ops
      (b.get_train_op (total_loss_value g3 il)
        (global_step_value (total_loss_state g3 il)))
      (global_step_state (total_loss_state g3 il)) with
  | error e =>
    simp [ModelBuilder.get_estimator_spec, GraphM.run_bind, GraphM.run_pure,
      total_loss_run, global_step_run, tf_get_collection_update_ops,
      hinf, hpred, hloss, hc, mode_train_ne_predict, mode_train_ne_eval]
  | ok t =>
    obtain ⟨top, g5⟩ := t
    simp [ModelBuilder.get_estimator_spec, GraphM.run_bind, GraphM.run_pure,
      total_loss_run, global_step_run, tf_get_collection_update_ops,
      hinf, hpred, hloss, hc, mode_train_ne_predict, mode_train_ne_eval]

/-- `get_total_loss` only touches the summaries: the `UPDATE_OPS`
collection and control-dependency context pass through. -/
theorem total_loss_state_fields (g : Graph) (il : Tensor) :
    (total_loss_state g il).update_ops = g.update_ops
    ∧ (total_loss_state g il).ctrl_deps = g.ctrl_deps := by
  unfold total_loss_state; split <;> exact ⟨rfl, rfl⟩

/-- `get_or_create_global_step` only touches the global step: the
`UPDATE_OPS` collection and control-dependency context pass through. -/
theorem global_step_state_fields (g : Graph) :
    (global_step_state g).update_ops = g.update_ops
    ∧ (global_step_state g).ctrl_deps = g.ctrl_deps := by
  unfold global_step_state; split <;> exact ⟨rfl, rfl⟩

/-- `tf_create_op` satisfies the op-construction contract: the op it
returns records the ambient control-dependency context. -/
theorem tf_create_op_attaches : attaches_ctrl_deps tf_create_op := by
  intro g op g' h d hd
  unfold tf_create_op at h
  injection h with h'
  injection h' with ha hb
  subst ha
  exact List.mem_map_of_mem Op.id hd

/-- C8: for every mode that is not PREDICT, EVAL or TRAIN,
`get_estimator_spec` never returns an estimator spec (for any builder and
graph), and — whenever the preceding callback calls return — it raises
`ValueError` naming the unrecognized mode. -/
theorem unrecognized_mode_raises (mode : String)
    (h1 : mode ≠ ModeKeys.PREDICT) (h2 : mode ≠ ModeKeys.EVAL)
    (h3 : mode ≠ ModeKeys.TRAIN) :
    (∀ (b : Builder) (features : Tensor) (labels : Option Tensor) (g : Graph)
       (spec : EstimatorSpec) (g' : Graph),
       ModelBuilder.get_estimator_spec b features labels mode none g
         ≠ .ok (spec, g'))
    ∧ (∀ (b : Builder) (features : Tensor) (labels : Option Tensor) (g : Graph)
         (i : Tensor) (g1 : Graph) (p : Tensor) (g2 : Graph) (il : Tensor)
         (g3 : Graph) (top : Op) (g5 : Graph),
         b.get_inference features mode g = .ok (i, g1) →
         b.get_predictions i g1 = .ok (p, g2) →
         b.get_inference_loss i labels g2 = .ok (il, g3) →
         tf_control_dependencies
             (global_step_state (total_loss_state g3 il)).update_ops
             (b.get_train_op (total_loss_value g3 il)
               (global_step_value (total_loss_state g3 il)))
             (global_step_state (total_loss_state g3 il)) = .ok (top, g5) →
         ModelBuilder.get_estimator_spec b features labels mode none g
           = .error (.valueError ("Unrecognized mode " ++ mode))) := by
  constructor
  · intro b features labels g spec g' hcon
    rw [unrecognized_mode_run b features labels mode h1 h2 h3 g] at hcon
    repeat' split at hcon
    all_goals simp at hcon
  · intro b features labels g i g1 p g2 il g3 top g5 hinf hpred hloss hctrl
    rw [unrecognized_mode_run b features labels mode h1 h2 h3 g]
    simp [hinf, hpred, hloss, hctrl]

/-- Witness for `unrecognized_mode_raises`: the concrete mode `"foo"` on
`sampleBuilder` raises the named `ValueError`. -/
theorem unrecognized_mode_raises_w :
    ModelBuilder.get_estimator_spec sampleBuilder (Tensor.var "x") none
        "foo" none Graph.empty
      = .error (.valueError "Unrecognized mode foo") :=
  (unrecognized_mode_raises "foo" (by decide) (by decide) (by decide)).2
    sampleBuilder (Tensor.var "x") none Graph.empty
    (Tensor.var "inference") Graph.empty (Tensor.var "inference")
    Graph.empty (Tensor.var "inference_loss") Graph.empty
    ⟨0, []⟩ { global_step := some (Tensor.var "global_step"), next_id := 1 }
    rfl rfl rfl rfl

/-- C10: in TRAIN mode, `get_estimator_spec` obtains its train op by
running `get_train_op` on the total loss and the global step inside the
control-dependency block opened on the `UPDATE_OPS` collection; hence, for
any `get_train_op` that obeys the op-construction contract
(`attaches_ctrl_deps`), every collected update op is a dependency of the
returned train op. -/
theorem train_op_under_update_ops (b : Builder) (features : Tensor)
    (labels : Option Tensor) (g : Graph)
    (hattach : ∀ loss step, attaches_ctrl_deps (b.get_train_op loss step))
    (i : Tensor) (g1 : Graph) (p : Tensor) (g2 : Graph) (il : Tensor)
    (g3 : Graph) (spec : EstimatorSpec) (gf : Graph)
    (hinf : b.get_inference features ModeKeys.TRAIN g = .ok (i, g1))
    (hpred : b.get_predictions i g1 = .ok (p, g2))
    (hloss : b.get_inference_loss i labels g2 = .ok (il, g3))
    (hrun : ModelBuilder.get_estimator_spec b features labels ModeKeys.TRAIN
        none g = .ok (spec, gf)) :
    ∃ (top : Op) (g5 : Graph),
      spec.train_op = some top
      ∧ b.get_train_op (total_loss_value g3 il)
          (global_step_value (total_loss_state g3 il))
          { global_step_state (total_loss_state g3 il) with
            ctrl_deps := (global_step_state (total_loss_state g3 il)).ctrl_deps
              ++ (global_step_state (total_loss_state g3 il)).update_ops }
          = .ok (top, g5)
      ∧ ∀ u ∈ g3.update_ops, u.id ∈ top.deps := by
  rw [train_mode_run b features labels g i g1 p g2 il g3 hinf hpred hloss] at hrun
  set g4 := global_step_state (total_loss_state g3 il) with hg4
  cases hop : b.get_train_op (total_loss_value g3 il)
      (global_step_value (total_loss_state g3 il))
      { g4 with ctrl_deps := g4.ctrl_deps ++ g4.update_ops } with
  | error e =>
    rw [show tf_control_dependencies g4.update_ops
        (b.get_train_op (total_loss_value g3 il)
          (global_step_value (total_loss_state g3 il))) g4 = .error e by
      unfold tf_control_dependencies; rw [hop]] at hrun
    simp at hrun
  | ok t =>
    obtain ⟨top, g5⟩ := t
    rw [show tf_control_dependencies g4.update_ops
        (b.get_train_op (total_loss_value g3 il)
          (global_step_value (total_loss_state g3 il))) g4
        = .ok (top, { g5 with ctrl_deps := g4.ctrl_deps }) by
      unfold tf_control_dependencies; rw [hop]] at hrun
    simp only [Except.ok.injEq, Prod.mk.injEq] at hrun
    obtain ⟨hspec, _⟩ := hrun
    refine ⟨top, g5, ?_, rfl, ?_⟩
    · rw [← hspec]
    · intro u hu
      have hu4 : u ∈ g4.update_ops := by
        rw [hg4, (global_step_state_fields (total_loss_state g3 il)).1,
          (total_loss_state_fields g3 il).1]
        exact hu
      exact hattach (total_loss_value g3 il)
        (global_step_value (total_loss_state g3 il))
        { g4 with ctrl_deps := g4.ctrl_deps ++ g4.update_ops } top g5 hop u
        (List.mem_append_right _ hu4)

/-- Witness for `train_op_under_update_ops`: `sampleBuilder` (whose
`get_train_op` creates an op) on `sampleGraph` (two collected update ops,
ids 7 and 9) yields a train op depending on both. -/
theorem train_op_under_update_ops_w :
    ∃ (top : Op) (g5 : Graph),
      (({ mode := ModeKeys.TRAIN, predictions := Tensor.var "inference",
          loss := some (Tensor.var "inference_loss"),
          train_op := some (⟨10, [7, 9]⟩ : Op),
          eval_metric_ops := none } : EstimatorSpec)).train_op = some top
      ∧ sampleBuilder.get_train_op
          (total_loss_value sampleGraph (Tensor.var "inference_loss"))
          (global_step_value
            (total_loss_state sampleGraph (Tensor.var "inference_loss")))
          { global_step_state
              (total_loss_state sampleGraph (Tensor.var "inference_loss")) with
            ctrl_deps :=
              (global_step_state (total_loss_state sampleGraph
                (Tensor.var "inference_loss"))).ctrl_deps
              ++ (global_step_state (total_loss_state sampleGraph
                (Tensor.var "inference_loss"))).update_ops }
          = .ok (top, g5)
      ∧ ∀ u ∈ sampleGraph.update_ops, u.id ∈ top.deps :=
  train_op_under_update_ops sampleBuilder (Tensor.var "x") none sampleGraph
    (fun _ _ => tf_create_op_attaches)
    (Tensor.var "inference") sampleGraph (Tensor.var "inference") sampleGraph
    (Tensor.var "inference_loss") sampleGraph
    { mode := ModeKeys.TRAIN, predictions := Tensor.var "inference",
      loss := some (Tensor.var "inference_loss"),
      train_op := some (⟨10, [7, 9]⟩ : Op), eval_metric_ops := none }
    { sampleGraph with
      global_step := some (Tensor.var "global_step")
      next_id := 11 }
    rfl rfl rfl rfl

/-- The `vis_inputs` session loop, when the visualization callback
succeeds, emits one `visExample` event per iteration with that
iteration's fetched batch. -/
theorem vis_example_loop_run (b : Builder) (features : Tensor)
    (labels : Option Tensor)
    (hvis : ∀ fd ld, b.vis_example_data fd ld = .ok ()) :
    ∀ (n cur : Nat), vis_example_loop b features labels cur n
      = .ok ((List.range n).map (fun k =>
          VisEvent.visExample (Data.arr features (cur + k))
            (sess_run_fetch (cur + k) labels))) := by
  intro n
  induction n with
  | zero => intro cur; simp [vis_example_loop]
  | succ n ih =>
    intro cur
    simp only [vis_example_loop, hvis, Bind.bind, Except.bind]
    rw [ih (cur + 1), List.range_succ_eq_map, List.map_cons, List.map_map]
    have hidx : ∀ k, cur + 1 + k = cur + (k + 1) := fun k => by omega
    simp [Function.comp, Nat.succ_eq_add_one, hidx]

/-- The `vis_predictions` session loop, when the visualization callback
succeeds, emits one `visPrediction` event per iteration with that
iteration's fetched batch. -/
theorem vis_prediction_loop_run (b : Builder) (predictions features : Tensor)
    (labels : Option Tensor)
    (hvis : ∀ pd fd ld, b.vis_prediction_data pd fd ld = .ok ()) :
    ∀ (n cur : Nat), vis_prediction_loop b predictions features labels cur n
      = .ok ((List.range n).map (fun k =>
          VisEvent.visPrediction (Data.arr predictions (cur + k))
            (Data.arr features (cur + k)) (sess_run_fetch (cur + k) labels))) := by
  intro n
  induction n with
  | zero => intro cur; simp [vis_prediction_loop]
  | succ n ih =>
    intro cur
    simp only [vis_prediction_loop, hvis, Bind.bind, Except.bind]
    rw [ih (cur + 1), List.range_succ_eq_map, List.map_cons, List.map_map]
    have hidx : ∀ k, cur + 1 + k = cur + (k + 1) := fun k => by omega
    simp [Function.comp, Nat.succ_eq_add_one, hidx]

/-- C7: at the default TRAIN mode, with working input pipeline and
visualization callbacks, `vis_predictions` first restores from the latest
checkpoint in `self.model_dir` and then — like `vis_inputs` — runs one
batch per session iteration and hands the fetched data to the subclass
callback (`vis_prediction_data` resp. `vis_example_data`), once per
iteration until the session signals it should stop after `n` steps. -/
theorem vis_loops_restore_and_iterate (b : Builder) (n : Nat)
    (features : Tensor) (labels : Option Tensor) (spec : EstimatorSpec)
    (g : Graph)
    (hin : ModelBuilder.get_train_inputs b = .ok (features, labels))
    (hspec : ModelBuilder.get_estimator_spec b features labels
        ModeKeys.PREDICT none Graph.empty = .ok (spec, g))
    (hve : ∀ fd ld, b.vis_example_data fd ld = .ok ())
    (hvp : ∀ pd fd ld, b.vis_prediction_data pd fd ld = .ok ()) :
    ModelBuilder.vis_inputs b n
      = .ok ((List.range n).map (fun k =>
          VisEvent.visExample (Data.arr features k) (sess_run_fetch k labels)))
    ∧ ModelBuilder.vis_predictions b n
      = .ok (VisEvent.restore (CkptRef.latest (ModelBuilder.model_dir b)) ::
          (List.range n).map (fun k =>
            VisEvent.visPrediction (Data.arr spec.predictions k)
              (Data.arr features k) (sess_run_fetch k labels))) := by
  constructor
  · simp [ModelBuilder.vis_inputs, mode_train_ne_predict, hin,
      Bind.bind, Except.bind, Except.map, vis_example_loop_run b features
      labels hve n 0]
  · simp [ModelBuilder.vis_predictions, mode_train_ne_predict, hin, hspec,
      Bind.bind, Except.bind, Except.map, vis_prediction_loop_run b
      spec.predictions features labels hvp n 0]

/-- Witness for `vis_loops_restore_and_iterate`: `sampleBuilder` with a
two-iteration session. -/
theorem vis_loops_restore_and_iterate_w :
    ModelBuilder.vis_inputs sampleBuilder 2
      = .ok ((List.range 2).map (fun k =>
          VisEvent.visExample
            (Data.arr (Tensor.next (Dataset.batch (Dataset.repeat_
              (Dataset.shuffle (Dataset.ofSource "train_source") 10000) none) 4) 0) k)
            (sess_run_fetch k (some (Tensor.next (Dataset.batch (Dataset.repeat_
              (Dataset.shuffle (Dataset.ofSource "train_source") 10000) none) 4) 1)))))
    ∧ ModelBuilder.vis_predictions sampleBuilder 2
      = .ok (VisEvent.restore
            (CkptRef.latest (ModelBuilder.model_dir sampleBuilder)) ::
          (List.range 2).map (fun k =>
            VisEvent.visPrediction (Data.arr (Tensor.var "inference") k)
              (Data.arr (Tensor.next (Dataset.batch (Dataset.repeat_
                (Dataset.shuffle (Dataset.ofSource "train_source") 10000) none) 4) 0) k)
              (sess_run_fetch k (some (Tensor.next (Dataset.batch (Dataset.repeat_
                (Dataset.shuffle (Dataset.ofSource "train_source") 10000) none) 4) 1))))) :=
  vis_loops_restore_and_iterate sampleBuilder 2
    (Tensor.next (Dataset.batch (Dataset.repeat_
      (Dataset.shuffle (Dataset.ofSource "train_source") 10000) none) 4) 0)
    (some (Tensor.next (Dataset.batch (Dataset.repeat_
      (Dataset.shuffle (Dataset.ofSource "train_source") 10000) none) 4) 1))
    { mode := ModeKeys.PREDICT, predictions := Tensor.var "inference" }
    Graph.empty rfl rfl (fun _ _ => rfl) (fun _ _ _ => rfl)
